import Mathlib

/-!
Verification of the topological-neural-network challenge repository.

The repository's models operate on dense rational matrices (the torch
tensors of the notebooks).  We embed a tensor of shape `[rows, cols]` as a
`Mat`: a pair of dimensions together with a total entry function.  The
external layer classes (`CCXNLayer`, `HSNLayer`, `SCNNLayer`, `SCCNNLayer`,
imported from the `topomodelx` package) are opaque to the repository's own
code, so each model stores its stack of layers as a list of abstract layer
functions; every property below is proved for all values of these
functions.  The elementwise nonlinearities `exp` (inside softmax) and
`sigmoid` are likewise abstracted as function parameters: torch's `exp` is
a strictly positive function, which is the only fact any claim needs.
-/

namespace TnnChallenge

/-- Dense matrix over the rationals: shape plus a total entry function,
embedding a torch tensor of shape `[rows, cols]`. -/
structure Mat where
  rows : Nat
  cols : Nat
  entry : Nat → Nat → ℚ

/-- Dense vector: a torch tensor of shape `[len]`. -/
structure Vec where
  len : Nat
  entry : Nat → ℚ

/-- The zero vector of a given length. -/
def zeroVec (n : Nat) : Vec :=
  ⟨n, fun _ => 0⟩

/-- Elementwise sum of two vectors (torch `+` on same-shape 1-D tensors). -/
def vecAdd (a b : Vec) : Vec :=
  ⟨a.len, fun j => a.entry j + b.entry j⟩

/-- Matrix product (torch `@` on 2-D tensors). -/
def matMul (A B : Mat) : Mat :=
  ⟨A.rows, B.cols, fun i j => Finset.sum (Finset.range A.cols) fun k => A.entry i k * B.entry k j⟩

/-- Elementwise sum of two matrices. -/
def matAdd (A B : Mat) : Mat :=
  ⟨A.rows, A.cols, fun i j => A.entry i j + B.entry i j⟩

/-- Application of `torch.nn.Linear` with weight `W : [out, in]` and bias
`b` to a batch `X : [n, in]`, giving `X Wᵀ + b : [n, out]`. -/
def linearMap (W : Mat) (b : Nat → ℚ) (X : Mat) : Mat :=
  ⟨X.rows, W.rows, fun i j =>
    (Finset.sum (Finset.range W.cols) fun k => X.entry i k * W.entry j k) + b j⟩

/-- Application of `torch.nn.Linear` to a single vector. -/
def linVec (W : Mat) (b : Nat → ℚ) (v : Vec) : Vec :=
  ⟨W.rows, fun j =>
    (Finset.sum (Finset.range W.cols) fun k => v.entry k * W.entry j k) + b j⟩

/-- Embedding of `torch.nanmean(X, dim=0)` at column `j`.  Over an empty
dimension the reduction produces NaN, embedded as `none`; over a nonempty
dimension it is the ordinary column mean (the notebook feature tensors
carry no NaN entries, so ignoring NaN inputs is the identity). -/
def nanmeanDim0 (X : Mat) (j : Nat) : Option ℚ :=
  if X.rows = 0 then none
  else some ((Finset.sum (Finset.range X.rows) fun i => X.entry i j) / (X.rows : ℚ))

/-- Embedding of the in-place scrub `v[torch.isnan(v)] = 0`: every NaN
(`none`) entry is replaced by `0`. -/
def scrubNaN (len : Nat) (v : Nat → Option ℚ) : Vec :=
  ⟨len, fun j => (v j).getD 0⟩

/-- Embedding of `torch.softmax(X, dim=-1)`, parameterized by the
elementwise exponential `e` (torch's `exp`, a strictly positive function). -/
def softmaxRows (e : ℚ → ℚ) (X : Mat) : Mat :=
  ⟨X.rows, X.cols, fun i j =>
    e (X.entry i j) / Finset.sum (Finset.range X.cols) fun k => e (X.entry i k)⟩

/-- Maximum of column `j` of `X` over all rows (meaningful when `X.rows ≠ 0`). -/
def colMax (X : Mat) (j : Nat) : ℚ :=
  ((List.range X.rows).map fun i => X.entry i j).foldl max (X.entry 0 j)

/-- Embedding of `torch.max(X, dim=0)[0]`.  On a tensor whose dimension 0
has size zero, `torch.max` raises an error rather than returning a value;
the raise is embedded as `Except.error` with torch's message. -/
def torchMaxDim0 (X : Mat) : Except String Vec :=
  if X.rows = 0 then
    Except.error "max(): Expected reduction dim 0 to have non-zero size."
  else
    Except.ok ⟨X.cols, fun j => colMax X j⟩

/-- Specification-side notion used by the claims: the per-rank reduced
output, i.e. the rank's linear readout followed by the NaN-safe mean over
the cells of the rank. -/
def reducedRankOutput (W : Mat) (b : Nat → ℚ) (X : Mat) : Vec :=
  scrubNaN (linearMap W b X).cols (nanmeanDim0 (linearMap W b X))

/- ----------------------------------------------------------------------
CCXN, from part_000: `CCXN.__init__` builds `n_layers` `CCXNLayer`
instances and three readouts `lin_0/lin_1/lin_2`; `CCXN.forward` runs the
layers on `(x_0, x_1)` with the fixed operators, applies the readouts,
takes NaN-scrubbed means and returns their sum.
---------------------------------------------------------------------- -/

/-- Shape of one `CCXNLayer` call: `layer(x_0, x_1, neighborhood_0_to_0,
neighborhood_1_to_2)` returning `(x_0, x_1, x_2)`. -/
abbrev CCXNLayerF := Mat → Mat → Mat → Mat → Mat × Mat × Mat

/-- The CCXN model state: the layer stack and the three rank-indexed
readout weights built in `CCXN.__init__` (part_000). -/
structure CCXN where
  layers : List CCXNLayerF
  lin0W : Mat
  lin0b : Nat → ℚ
  lin1W : Mat
  lin1b : Nat → ℚ
  lin2W : Mat
  lin2b : Nat → ℚ

/-- Embedding of `CCXN.__init__` (part_000 lines 299-322): append
`n_layers` fresh `CCXNLayer` instances (`mkLayer` stands for the external
constructor, indexed by position) and create
`Linear(in_channels_r, num_classes)` for each rank `r`. -/
def ccxnInit (mkLayer : Nat → CCXNLayerF) (in0 in1 in2 numClasses : Nat)
    (w0 w1 w2 : Nat → Nat → ℚ) (b0 b1 b2 : Nat → ℚ) (nLayers : Nat) : CCXN :=
  { layers := (List.range nLayers).map mkLayer
    lin0W := ⟨numClasses, in0, w0⟩
    lin0b := b0
    lin1W := ⟨numClasses, in1, w1⟩
    lin1b := b1
    lin2W := ⟨numClasses, in2, w2⟩
    lin2b := b2 }

/-- One iteration of the loop `x_0, x_1, x_2 = layer(x_0, x_1,
neighborhood_0_to_0, neighborhood_1_to_2)`: the layer consumes the carried
`(x_0, x_1)` and the loop-invariant operators; `x_2` becomes bound
(`some`) once a layer has run. -/
def ccxnStep (adj inc : Mat) (acc : Mat × Mat × Option Mat) (l : CCXNLayerF) :
    Mat × Mat × Option Mat :=
  let t := l acc.1 acc.2.1 adj inc
  (t.1, t.2.1, some t.2.2)

/-- The layer loop of `CCXN.forward`.  Before the loop `x_2` is unbound,
embedded as `none` (with zero layers the Python body would hit an unbound
`x_2`). -/
def ccxnRun (ls : List CCXNLayerF) (x0 x1 adj inc : Mat) : Mat × Mat × Option Mat :=
  ls.foldl (ccxnStep adj inc) (x0, x1, none)

/-- The readout tail of `CCXN.forward` (part_000 lines 348-363): apply
`lin_0/lin_1/lin_2`, take `torch.nanmean(·, dim=0)` per rank, scrub NaN to
zero, and return the sum of the three means (rank 2 + rank 1 + rank 0). -/
def ccxnReadout (m : CCXN) (a0 a1 a2 : Mat) : Vec :=
  let y0 := linearMap m.lin0W m.lin0b a0
  let y1 := linearMap m.lin1W m.lin1b a1
  let y2 := linearMap m.lin2W m.lin2b a2
  let mean2 := scrubNaN y2.cols (nanmeanDim0 y2)
  let mean1 := scrubNaN y1.cols (nanmeanDim0 y1)
  let mean0 := scrubNaN y0.cols (nanmeanDim0 y0)
  vecAdd (vecAdd mean2 mean1) mean0

/-- Embedding of `CCXN.forward` (part_000 lines 324-363). -/
def ccxnForward (m : CCXN) (x0 x1 adj inc : Mat) : Option Vec :=
  match ccxnRun m.layers x0 x1 adj inc with
  | (_, _, none) => none
  | (a0, a1, some a2) => some (ccxnReadout m a0 a1 a2)

/-- State-threading form of the CCXN layer loop: the pair of operator
tensors is carried explicitly through every iteration, so that their
preservation (the source only reads them) becomes a provable statement. -/
def ccxnRunSt (ls : List CCXNLayerF) (ops : Mat × Mat) (x0 x1 : Mat) :
    (Mat × Mat) × (Mat × Mat × Option Mat) :=
  ls.foldl (fun acc l => (acc.1, ccxnStep acc.1.1 acc.1.2 acc.2 l)) (ops, (x0, x1, none))

/-- State-threading form of `CCXN.forward`: besides the output it returns
the model weights and the operator tensors as they stand after the call. -/
def ccxnForwardSt (m : CCXN) (x0 x1 adj inc : Mat) : Option Vec × CCXN × Mat × Mat :=
  let r := ccxnRunSt m.layers (adj, inc) x0 x1
  (match r.2 with
   | (_, _, none) => none
   | (a0, a1, some a2) => some (ccxnReadout m a0 a1 a2), m, r.1.1, r.1.2)

/- ----------------------------------------------------------------------
HSN, from hsn_train.ipynb: `n_layers` `HSNLayer` instances on node
signals, then `Linear(channels, 2)` and softmax over the class dimension.
---------------------------------------------------------------------- -/

/-- Shape of one `HSNLayer` call: `layer(x_0, incidence_1, adjacency_0)`. -/
abbrev HSNLayerF := Mat → Mat → Mat → Mat

/-- The HSN model state built in `HSN.__init__` (hsn_train.ipynb). -/
structure HSN where
  layers : List HSNLayerF
  linW : Mat
  linb : Nat → ℚ

/-- Embedding of `HSN.__init__`: `n_layers` fresh `HSNLayer` instances and
one `Linear(channels, 2)` readout. -/
def hsnInit (mkLayer : Nat → HSNLayerF) (channels : Nat)
    (w : Nat → Nat → ℚ) (b : Nat → ℚ) (nLayers : Nat) : HSN :=
  { layers := (List.range nLayers).map mkLayer
    linW := ⟨2, channels, w⟩
    linb := b }

/-- The layer loop of `HSN.forward`: `x_0 = layer(x_0, incidence_1,
adjacency_0)` for each layer. -/
def hsnRun (ls : List HSNLayerF) (x0 inc adj : Mat) : Mat :=
  ls.foldl (fun a l => l a inc adj) x0

/-- Embedding of `HSN.forward` (hsn_train.ipynb lines 338-365): layers,
then `softmax(linear(x_0), dim=-1)` with no incidence projection. -/
def hsnForward (e : ℚ → ℚ) (m : HSN) (x0 inc adj : Mat) : Mat :=
  softmaxRows e (linearMap m.linW m.linb (hsnRun m.layers x0 inc adj))

/-- State-threading form of the HSN layer loop, carrying the operator pair
through every iteration. -/
def hsnRunSt (ls : List HSNLayerF) (ops : Mat × Mat) (x0 : Mat) : (Mat × Mat) × Mat :=
  ls.foldl (fun acc l => (acc.1, l acc.2 acc.1.1 acc.1.2)) (ops, x0)

/-- State-threading form of `HSN.forward`: returns the output together
with the model weights and operator tensors after the call. -/
def hsnForwardSt (e : ℚ → ℚ) (m : HSN) (x0 inc adj : Mat) : Mat × HSN × Mat × Mat :=
  let r := hsnRunSt m.layers (inc, adj) x0
  (softmaxRows e (linearMap m.linW m.linb r.2), m, r.1.1, r.1.2)

/- ----------------------------------------------------------------------
The three SCNN model classes.  All stack `SCNNLayer` instances of shape
`layer(x, laplacian_down, laplacian_up)`; their constructors share the
same body: one initial layer built WITHOUT the `aggr_norm`/`update_func`
arguments, then `n_layers - 1` further layers that do receive them.
---------------------------------------------------------------------- -/

/-- Shape of one `SCNNLayer` call: `layer(x, laplacian_down, laplacian_up)`. -/
abbrev SCNNLayerF := Mat → Mat → Mat → Mat

/-- The layer loop shared by the SCNN forwards: `x = layer(x,
laplacian_down, laplacian_up)` for each stacked layer. -/
def scnnRun (ls : List SCNNLayerF) (x lapDown lapUp : Mat) : Mat :=
  ls.foldl (fun a l => l a lapDown lapUp) x

/-- The complex-classification SCNN of scnn_train_shrec.ipynb: layer stack
plus `Linear(out_channels, 1)`. -/
structure SCNNShrec where
  layers : List SCNNLayerF
  linW : Mat
  linb : Nat → ℚ

/-- Embedding of `SCNN.__init__` (scnn_train_shrec.ipynb lines 205-216):
one first `SCNNLayer` (`firstLayer`), then `n_layers - 1` further
instances (`mkLayer`, indexed by position), then `Linear(out_channels, 1)`.
With `n_layers = 0` the Python `range(n_layers - 1)` is empty, so the
list still holds the single first layer. -/
def scnnShrecInit (firstLayer : SCNNLayerF) (mkLayer : Nat → SCNNLayerF)
    (outChannels : Nat) (w : Nat → Nat → ℚ) (b : Nat → ℚ) (nLayers : Nat) : SCNNShrec :=
  { layers := firstLayer :: (List.range (nLayers - 1)).map mkLayer
    linW := ⟨1, outChannels, w⟩
    linb := b }

/-- Embedding of the shrec `SCNN.forward`: layers, linear readout, then
`torch.nanmean(x_1, dim=0)` with the NaN entries scrubbed to zero. -/
def scnnShrecForward (m : SCNNShrec) (x lapDown lapUp : Mat) : Vec :=
  let xf := scnnRun m.layers x lapDown lapUp
  let x1 := linearMap m.linW m.linb xf
  scrubNaN x1.cols (nanmeanDim0 x1)

/-- The max-pooling SCNN of part_001: layer stack plus
`Linear(out_channels, 1)`. -/
structure SCNNMax where
  layers : List SCNNLayerF
  outLinW : Mat
  outLinb : Nat → ℚ

/-- Embedding of `SCNN.__init__` (part_001 lines 154-165), same
constructor body as the shrec SCNN. -/
def scnnMaxInit (firstLayer : SCNNLayerF) (mkLayer : Nat → SCNNLayerF)
    (outChannels : Nat) (w : Nat → Nat → ℚ) (b : Nat → ℚ) (nLayers : Nat) : SCNNMax :=
  { layers := firstLayer :: (List.range (nLayers - 1)).map mkLayer
    outLinW := ⟨1, outChannels, w⟩
    outLinb := b }

/-- Embedding of the part_001 `SCNN.forward` (lines 168-181): layers, then
`pooled_x = torch.max(x, dim=0)[0]` and `y =
torch.sigmoid(out_linear(pooled_x))[0]`; `sigma` stands for torch's
elementwise sigmoid.  A zero-row final signal makes `torch.max` raise. -/
def scnnMaxForward (sigma : ℚ → ℚ) (m : SCNNMax) (x lapDown lapUp : Mat) :
    Except String ℚ :=
  let xf := scnnRun m.layers x lapDown lapUp
  match torchMaxDim0 xf with
  | Except.error s => Except.error s
  | Except.ok pooled => Except.ok (sigma ((linVec m.outLinW m.outLinb pooled).entry 0))

/-- The node-classification SCNN of scnn_train_karate.ipynb: layer stack
plus `Linear(out_channels, 2)`. -/
structure SCNNKarate where
  layers : List SCNNLayerF
  linW : Mat
  linb : Nat → ℚ

/-- Embedding of `SCNN.__init__` (scnn_train_karate.ipynb lines 295-330),
same constructor body but with a `Linear(out_channels, 2)` readout. -/
def scnnKarateInit (firstLayer : SCNNLayerF) (mkLayer : Nat → SCNNLayerF)
    (outChannels : Nat) (w : Nat → Nat → ℚ) (b : Nat → ℚ) (nLayers : Nat) : SCNNKarate :=
  { layers := firstLayer :: (List.range (nLayers - 1)).map mkLayer
    linW := ⟨2, outChannels, w⟩
    linb := b }

/-- Embedding of the karate `SCNN.forward` (lines 332-356): layers on the
edge signal, one projection `incidence_1 @ x` from edges to nodes, linear
readout, and `torch.softmax(logits, dim=-1)`. -/
def scnnKarateForward (e : ℚ → ℚ) (m : SCNNKarate) (x lapDown lapUp incidence1 : Mat) : Mat :=
  softmaxRows e (linearMap m.linW m.linb (matMul incidence1 (scnnRun m.layers x lapDown lapUp)))

/- ----------------------------------------------------------------------
The two SCCNN model classes of sccnn_train_shrec.ipynb (the file holds two
notebooks back to back).  Both stack `SCCNNLayer` instances of shape
`layer(x_all, laplacian_all, incidence_all)` after per-rank input linears.
---------------------------------------------------------------------- -/

/-- A triple of per-rank signals `(x_0, x_1, x_2)`. -/
abbrev SigAll := Mat × Mat × Mat

/-- The operator tuple `(laplacian_0, laplacian_down_1, laplacian_up_1,
laplacian_2)`. -/
abbrev LapAll := Mat × Mat × Mat × Mat

/-- The incidence tuple `(incidence_1, incidence_2)`. -/
abbrev IncAll := Mat × Mat

/-- Shape of one `SCCNNLayer` call. -/
abbrev SCCNNLayerF := SigAll → LapAll → IncAll → SigAll

/-- The layer loop shared by both SCCNN forwards: `x_all = layer(x_all,
laplacian_all, incidence_all)` for each stacked layer. -/
def sccnnRun (ls : List SCCNNLayerF) (x : SigAll) (lap : LapAll) (inc : IncAll) : SigAll :=
  ls.foldl (fun a l => l a lap inc) x

/-- The second (complex-classification, mean-reduction) SCCNN of
sccnn_train_shrec.ipynb: per-rank input linears, layer stack, per-rank
output linears. -/
structure SCCNNComplex where
  inLin0W : Mat
  inLin0b : Nat → ℚ
  inLin1W : Mat
  inLin1b : Nat → ℚ
  inLin2W : Mat
  inLin2b : Nat → ℚ
  layers : List SCCNNLayerF
  outLin0W : Mat
  outLin0b : Nat → ℚ
  outLin1W : Mat
  outLin1b : Nat → ℚ
  outLin2W : Mat
  outLin2b : Nat → ℚ

/-- The input-linear stage of the complex-classification `SCCNN.forward`:
`in_x_r = self.in_linear_r(x_r)` for each rank. -/
def sccnnComplexInX (m : SCCNNComplex) (xAll : SigAll) : SigAll :=
  (linearMap m.inLin0W m.inLin0b xAll.1,
   linearMap m.inLin1W m.inLin1b xAll.2.1,
   linearMap m.inLin2W m.inLin2b xAll.2.2)

/-- Embedding of the complex-classification `SCCNN.forward`
(sccnn_train_shrec.ipynb second notebook, lines 587-641): input linears,
layers, `out_linear_r` per rank, NaN-scrubbed per-rank means, and the sum
of the three means. -/
def sccnnComplexForward (m : SCCNNComplex) (xAll : SigAll) (lapAll : LapAll)
    (incAll : IncAll) : Vec :=
  let xf := sccnnRun m.layers (sccnnComplexInX m xAll) lapAll incAll
  let y0 := linearMap m.outLin0W m.outLin0b xf.1
  let y1 := linearMap m.outLin1W m.outLin1b xf.2.1
  let y2 := linearMap m.outLin2W m.outLin2b xf.2.2
  let mean2 := scrubNaN y2.cols (nanmeanDim0 y2)
  let mean1 := scrubNaN y1.cols (nanmeanDim0 y1)
  let mean0 := scrubNaN y0.cols (nanmeanDim0 y0)
  vecAdd (vecAdd mean2 mean1) mean0

/-- The first (max-pooling) SCCNN of sccnn_train_shrec.ipynb (first
notebook, lines 150-201): per-rank input linears, layer stack, per-rank
`Linear(out_channels_r, 1)` readouts after max pooling. -/
structure SCCNNNode where
  inLin0W : Mat
  inLin0b : Nat → ℚ
  inLin1W : Mat
  inLin1b : Nat → ℚ
  inLin2W : Mat
  inLin2b : Nat → ℚ
  layers : List SCCNNLayerF
  outLin0W : Mat
  outLin0b : Nat → ℚ
  outLin1W : Mat
  outLin1b : Nat → ℚ
  outLin2W : Mat
  outLin2b : Nat → ℚ

/-- The input-linear stage of the max-pooling `SCCNN.forward`. -/
def sccnnNodeInX (m : SCCNNNode) (xAll : SigAll) : SigAll :=
  (linearMap m.inLin0W m.inLin0b xAll.1,
   linearMap m.inLin1W m.inLin1b xAll.2.1,
   linearMap m.inLin2W m.inLin2b xAll.2.2)

/-- Embedding of the max-pooling `SCCNN.forward` (first notebook, lines
176-201): input linears, layers, then `pooled_x_r = torch.max(x_r,
dim=0)[0]` and `y_r = torch.sigmoid(out_linear_r(pooled_x_r))[0]` for each
rank; a raise from any `torch.max` propagates out of the call. -/
def sccnnNodeForward (sigma : ℚ → ℚ) (m : SCCNNNode) (xAll : SigAll)
    (lapAll : LapAll) (incAll : IncAll) : Except String (ℚ × ℚ × ℚ) :=
  let xf := sccnnRun m.layers (sccnnNodeInX m xAll) lapAll incAll
  match torchMaxDim0 xf.1 with
  | Except.error s => Except.error s
  | Except.ok p0 =>
    match torchMaxDim0 xf.2.1 with
    | Except.error s => Except.error s
    | Except.ok p1 =>
      match torchMaxDim0 xf.2.2 with
      | Except.error s => Except.error s
      | Except.ok p2 =>
        Except.ok (sigma ((linVec m.outLin0W m.outLin0b p0).entry 0),
                   sigma ((linVec m.outLin1W m.outLin1b p1).entry 0),
                   sigma ((linVec m.outLin2W m.outLin2b p2).entry 0))

/- ----------------------------------------------------------------------
Rank-dispatch glue.
---------------------------------------------------------------------- -/

/-- The karate dataset as seen by `get_simplicial_features`: a bundle of
per-rank feature tables keyed by the attribute name the function picks. -/
structure SimplicialDataset where
  node_feat : List (List ℚ)
  edge_feat : List (List ℚ)
  face_feat : List (List ℚ)

/-- Embedding of `get_simplicial_features(dataset, rank)`
(scnn_train_karate.ipynb lines 173-190): the `if/elif` chain picks the
attribute name, raising `ValueError` for any rank other than 0, 1 or 2
before the dataset is ever read; otherwise the selected features are
gathered and returned. -/
def get_simplicial_features (dataset : SimplicialDataset) (rank : ℤ) :
    Except String (List (List ℚ)) :=
  if rank = 0 then Except.ok dataset.node_feat
  else if rank = 1 then Except.ok dataset.edge_feat
  else if rank = 2 then Except.ok dataset.face_feat
  else Except.error "input dimension must be 0, 1 or 2, because features are supported on nodes, edges and faces"

/-- Result of the rank-selection `if/elif` chain of scnn_train_shrec.ipynb
(lines 267-287): the chosen Laplacian pair (`None` embedded as `none`),
the possibly-overwritten `conv_order_down`, and the chosen signal and
channel width. -/
structure RankSelection (α β : Type) where
  laplacian_down : Option α
  laplacian_up : Option α
  conv_order_down : Nat
  x : β
  in_channels : Nat

/-- Embedding of the rank-selection `if/elif` chain of
scnn_train_shrec.ipynb: rank 0 picks `(None, laplacian_0)` and forces
`conv_order_down = 0` with the node features; rank 1 picks the down/up
edge Laplacians with the edge features; rank 2 picks `(laplacian_2,
None)` with the face features; any other rank raises `ValueError`. -/
def rankSelectShrec {α β : Type} (rank : ℤ) (convOrderDown : Nat)
    (l0 lDown1 lUp1 l2 : α) (x0 x1 x2 : β) (c0 c1 c2 : Nat) :
    Except String (RankSelection α β) :=
  if rank = 0 then Except.ok ⟨none, some l0, 0, x0, c0⟩
  else if rank = 1 then Except.ok ⟨some lDown1, some lUp1, convOrderDown, x1, c1⟩
  else if rank = 2 then Except.ok ⟨some l2, none, convOrderDown, x2, c2⟩
  else Except.error "Rank must be not larger than 2 on this dataset"

/-- The rank-selection cell followed by the model-construction cell of
scnn_train_shrec.ipynb: the SCNN is only constructed when the chain
succeeded, so an invalid rank propagates the `ValueError` before any
model exists. -/
def scnnShrecSetup {α β : Type} (firstLayer : SCNNLayerF) (mkLayer : Nat → SCNNLayerF)
    (rank : ℤ) (convOrderDown : Nat) (l0 lDown1 lUp1 l2 : α) (x0 x1 x2 : β)
    (c0 c1 c2 : Nat) (outChannels : Nat) (w : Nat → Nat → ℚ) (b : Nat → ℚ)
    (nLayers : Nat) : Except String (SCNNShrec × RankSelection α β) :=
  match rankSelectShrec rank convOrderDown l0 lDown1 lUp1 l2 x0 x1 x2 c0 c1 c2 with
  | Except.error s => Except.error s
  | Except.ok sel => Except.ok (scnnShrecInit firstLayer mkLayer outChannels w b nLayers, sel)

/- ----------------------------------------------------------------------
Constructor arguments of the stacked SCNN layers.
---------------------------------------------------------------------- -/

/-- The keyword arguments a `SCNNLayer` instance is constructed with. -/
structure SCNNLayerArgs where
  in_channels : Nat
  out_channels : Nat
  conv_order_down : Nat
  conv_order_up : Nat
  aggr_norm : Bool
  update_func : Option String

/-- The layer-argument lists produced by the three `SCNN.__init__` bodies
(scnn_train_shrec.ipynb lines 205-213, part_001 lines 158-162,
scnn_train_karate.ipynb lines 306-327 — the three bodies are identical):
the first `SCNNLayer` is built without the `aggr_norm`/`update_func`
keywords, so it receives `SCNNLayer`'s own defaults (`defaultAggrNorm`,
`defaultUpdateFunc`); the `n_layers - 1` later layers receive the values
the model was configured with. -/
def scnnLayerArgsList (defaultAggrNorm : Bool) (defaultUpdateFunc : Option String)
    (inChannels intermediateChannels outChannels convOrderDown convOrderUp : Nat)
    (aggrNorm : Bool) (updateFunc : Option String) (nLayers : Nat) :
    List SCNNLayerArgs :=
  ⟨inChannels, intermediateChannels, convOrderDown, convOrderUp,
    defaultAggrNorm, defaultUpdateFunc⟩ ::
    (List.range (nLayers - 1)).map
      (fun _ => ⟨intermediateChannels, outChannels, convOrderDown, convOrderUp,
        aggrNorm, updateFunc⟩)

/- ----------------------------------------------------------------------
Polynomial same-rank filter.
---------------------------------------------------------------------- -/

/-- Modelled from the spec: the iterated application `L^p H` of the
Polynomial Same-Rank Filter (section 4.1), whose implementation lives in
the submission file scnn_layer.py named by part_002 but absent from src/.
Each power is obtained by left-multiplying the previous power by `L`
once, and `L^0 H = H`. -/
def opPowApply (L : Mat) : Nat → Mat → Mat
  | 0, H => H
  | p + 1, H => matMul L (opPowApply L p H)

/-- Modelled from the spec: the Polynomial Same-Rank Filter
`H' = Σ_{p=0}^{P} W_p · (L^p H)` of section 4.1, with one learnable
weight matrix per polynomial degree (scnn_layer.py is absent from src/). -/
def polyFilter (weight : Nat → Mat) (L H : Mat) : Nat → Mat
  | 0 => matMul (weight 0) (opPowApply L 0 H)
  | P + 1 => matAdd (polyFilter weight L H P)
      (matMul (weight (P + 1)) (opPowApply L (P + 1) H))

/- ----------------------------------------------------------------------
Concrete fixtures used by the witness and counterexample theorems.
---------------------------------------------------------------------- -/

/-- A 1×1 all-ones matrix. -/
def sampleMat : Mat :=
  ⟨1, 1, fun _ _ => 1⟩

/-- A matrix with zero rows (a signal on an empty rank). -/
def emptyMat (c : Nat) : Mat :=
  ⟨0, c, fun _ _ => 0⟩

/-- A layer that returns its signal unchanged; row counts are preserved,
as for every linear-algebra layer. -/
def idLayer : SCNNLayerF := fun a _ _ => a

/-- A CCXN layer fixture returning `(x_0, x_1, x_0)`. -/
def sampleCCXNLayer : CCXNLayerF := fun a b _ _ => (a, b, a)

/-- A CCXN layer fixture whose face output is empty. -/
def emptyFaceCCXNLayer : CCXNLayerF := fun a b _ _ => (a, b, emptyMat 1)

/-- An SCCNN layer fixture returning its signals unchanged. -/
def idSCCNNLayer : SCCNNLayerF := fun a _ _ => a

/-- An all-zero bias vector. -/
def zeroBias : Nat → ℚ := fun _ => 0

/-- An all-ones weight function. -/
def oneWeight : Nat → Nat → ℚ := fun _ _ => 1

/-- A one-layer CCXN fixture. -/
def sampleCCXN : CCXN :=
  ccxnInit (fun _ => sampleCCXNLayer) 1 1 1 1 oneWeight oneWeight oneWeight
    zeroBias zeroBias zeroBias 1

/-- A one-layer CCXN fixture whose layer leaves the face rank empty. -/
def emptyFaceCCXN : CCXN :=
  ccxnInit (fun _ => emptyFaceCCXNLayer) 1 1 1 1 oneWeight oneWeight oneWeight
    zeroBias zeroBias zeroBias 1

/-- A one-layer complex-classification SCCNN fixture. -/
def sampleSCCNNComplex : SCCNNComplex :=
  ⟨sampleMat, zeroBias, sampleMat, zeroBias, sampleMat, zeroBias,
    [idSCCNNLayer],
    sampleMat, zeroBias, sampleMat, zeroBias, sampleMat, zeroBias⟩

/-- A one-layer max-pooling SCCNN fixture. -/
def sampleSCCNNNode : SCCNNNode :=
  ⟨sampleMat, zeroBias, sampleMat, zeroBias, sampleMat, zeroBias,
    [idSCCNNLayer],
    sampleMat, zeroBias, sampleMat, zeroBias, sampleMat, zeroBias⟩

/-- A one-layer shrec SCNN fixture. -/
def sampleSCNNShrec : SCNNShrec :=
  scnnShrecInit idLayer (fun _ => idLayer) 1 oneWeight zeroBias 1

/-- A one-layer max-pooling SCNN fixture. -/
def sampleSCNNMax : SCNNMax :=
  scnnMaxInit idLayer (fun _ => idLayer) 1 oneWeight zeroBias 1

/- ----------------------------------------------------------------------
Helper lemmas.
---------------------------------------------------------------------- -/

theorem vecEq {a b : Vec} (hl : a.len = b.len) (he : ∀ j, a.entry j = b.entry j) :
    a = b := by
  cases a
  cases b
  simp only [Vec.mk.injEq]
  exact ⟨hl, funext he⟩

theorem nanmeanDim0_of_zero_rows (X : Mat) (h : X.rows = 0) (j : Nat) :
    nanmeanDim0 X j = none := by
  simp [nanmeanDim0, h]

theorem reducedRankOutput_of_zero_rows (W : Mat) (b : Nat → ℚ) (X : Mat)
    (h : X.rows = 0) : reducedRankOutput W b X = zeroVec W.rows := by
  apply vecEq
  · rfl
  · intro j
    simp [reducedRankOutput, scrubNaN, nanmeanDim0, linearMap, h, zeroVec]

theorem ccxnForward_eq_sum (m : CCXN) (x0 x1 adj inc a0 a1 a2 : Mat)
    (h : ccxnRun m.layers x0 x1 adj inc = (a0, a1, some a2)) :
    ccxnForward m x0 x1 adj inc =
      some (vecAdd (vecAdd (reducedRankOutput m.lin2W m.lin2b a2)
          (reducedRankOutput m.lin1W m.lin1b a1))
        (reducedRankOutput m.lin0W m.lin0b a0)) := by
  unfold ccxnForward
  rw [h]
  rfl

theorem sccnnComplexForward_eq_sum (m : SCCNNComplex) (xAll : SigAll)
    (lapAll : LapAll) (incAll : IncAll) :
    sccnnComplexForward m xAll lapAll incAll =
      vecAdd (vecAdd
          (reducedRankOutput m.outLin2W m.outLin2b
            (sccnnRun m.layers (sccnnComplexInX m xAll) lapAll incAll).2.2)
          (reducedRankOutput m.outLin1W m.outLin1b
            (sccnnRun m.layers (sccnnComplexInX m xAll) lapAll incAll).2.1))
        (reducedRankOutput m.outLin0W m.outLin0b
          (sccnnRun m.layers (sccnnComplexInX m xAll) lapAll incAll).1) := rfl

/- ----------------------------------------------------------------------
Claim theorems.
---------------------------------------------------------------------- -/

/-- Claim C1: the whole-complex-classification models (CCXN in part_000
and the second SCCNN in sccnn_train_shrec) return the elementwise sum of
the three per-rank reduced outputs: forward applies the rank-indexed
linear readouts to the final node, edge and face signals, takes the mean
over cells within each rank, and returns mean(rank 2) + mean(rank 1) +
mean(rank 0) as a single vector. -/
theorem claim_c1 :
    (∀ (m : CCXN) (x0 x1 adj inc a0 a1 a2 : Mat),
        ccxnRun m.layers x0 x1 adj inc = (a0, a1, some a2) →
        ccxnForward m x0 x1 adj inc =
          some (vecAdd (vecAdd (reducedRankOutput m.lin2W m.lin2b a2)
              (reducedRankOutput m.lin1W m.lin1b a1))
            (reducedRankOutput m.lin0W m.lin0b a0))) ∧
    (∀ (m : SCCNNComplex) (xAll : SigAll) (lapAll : LapAll) (incAll : IncAll),
        sccnnComplexForward m xAll lapAll incAll =
          vecAdd (vecAdd
              (reducedRankOutput m.outLin2W m.outLin2b
                (sccnnRun m.layers (sccnnComplexInX m xAll) lapAll incAll).2.2)
              (reducedRankOutput m.outLin1W m.outLin1b
                (sccnnRun m.layers (sccnnComplexInX m xAll) lapAll incAll).2.1))
            (reducedRankOutput m.outLin0W m.outLin0b
              (sccnnRun m.layers (sccnnComplexInX m xAll) lapAll incAll).1)) :=
  ⟨ccxnForward_eq_sum, sccnnComplexForward_eq_sum⟩

/-- Witness for C1 at a concrete one-layer CCXN and concrete signals. -/
theorem claim_c1_witness :
    ccxnRun sampleCCXN.layers sampleMat sampleMat sampleMat sampleMat =
      (sampleMat, sampleMat, some sampleMat) ∧
    ccxnForward sampleCCXN sampleMat sampleMat sampleMat sampleMat =
      some (vecAdd (vecAdd (reducedRankOutput sampleCCXN.lin2W sampleCCXN.lin2b sampleMat)
          (reducedRankOutput sampleCCXN.lin1W sampleCCXN.lin1b sampleMat))
        (reducedRankOutput sampleCCXN.lin0W sampleCCXN.lin0b sampleMat)) :=
  ⟨rfl, claim_c1.1 sampleCCXN sampleMat sampleMat sampleMat sampleMat
    sampleMat sampleMat sampleMat rfl⟩

/-- Claim C2: in the mean-reduction models (CCXN, the second SCCNN in
sccnn_train_shrec, and the shrec SCNN) a rank with zero cells contributes
the zero vector, not NaN and not an error: the NaN produced by the mean
over the empty rank is replaced by 0 before the per-rank contributions
are summed or returned. -/
theorem claim_c2 :
    (∀ (W : Mat) (b : Nat → ℚ) (X : Mat) (j : Nat), X.rows = 0 →
        nanmeanDim0 (linearMap W b X) j = none ∧
        reducedRankOutput W b X = zeroVec W.rows) ∧
    (∀ (m : CCXN) (x0 x1 adj inc a0 a1 a2 : Mat),
        ccxnRun m.layers x0 x1 adj inc = (a0, a1, some a2) → a2.rows = 0 →
        ccxnForward m x0 x1 adj inc =
          some (vecAdd (vecAdd (zeroVec m.lin2W.rows)
              (reducedRankOutput m.lin1W m.lin1b a1))
            (reducedRankOutput m.lin0W m.lin0b a0))) ∧
    (∀ (m : SCCNNComplex) (xAll : SigAll) (lapAll : LapAll) (incAll : IncAll),
        (sccnnRun m.layers (sccnnComplexInX m xAll) lapAll incAll).2.2.rows = 0 →
        sccnnComplexForward m xAll lapAll incAll =
          vecAdd (vecAdd (zeroVec m.outLin2W.rows)
              (reducedRankOutput m.outLin1W m.outLin1b
                (sccnnRun m.layers (sccnnComplexInX m xAll) lapAll incAll).2.1))
            (reducedRankOutput m.outLin0W m.outLin0b
              (sccnnRun m.layers (sccnnComplexInX m xAll) lapAll incAll).1)) ∧
    (∀ (m : SCNNShrec) (x lapDown lapUp : Mat) (j : Nat),
        (scnnRun m.layers x lapDown lapUp).rows = 0 →
        nanmeanDim0 (linearMap m.linW m.linb (scnnRun m.layers x lapDown lapUp)) j = none ∧
        scnnShrecForward m x lapDown lapUp = zeroVec m.linW.rows) := by
  refine ⟨?_, ?_, ?_, ?_⟩
  · intro W b X j h
    refine ⟨?_, reducedRankOutput_of_zero_rows W b X h⟩
    exact nanmeanDim0_of_zero_rows (linearMap W b X) h j
  · intro m x0 x1 adj inc a0 a1 a2 hrun h2
    rw [ccxnForward_eq_sum m x0 x1 adj inc a0 a1 a2 hrun,
      reducedRankOutput_of_zero_rows m.lin2W m.lin2b a2 h2]
  · intro m xAll lapAll incAll h2
    rw [sccnnComplexForward_eq_sum m xAll lapAll incAll,
      reducedRankOutput_of_zero_rows m.outLin2W m.outLin2b _ h2]
  · intro m x lapDown lapUp j h
    refine ⟨nanmeanDim0_of_zero_rows
      (linearMap m.linW m.linb (scnnRun m.layers x lapDown lapUp)) h j, ?_⟩
    exact reducedRankOutput_of_zero_rows m.linW m.linb _ h

/-- Witness for C2: an empty rank at each of the three mean-reduction
models, fully concrete. -/
theorem claim_c2_witness :
    (nanmeanDim0 (linearMap sampleMat zeroBias (emptyMat 1)) 0 = none ∧
      reducedRankOutput sampleMat zeroBias (emptyMat 1) = zeroVec sampleMat.rows) ∧
    (ccxnForward emptyFaceCCXN sampleMat sampleMat sampleMat sampleMat =
      some (vecAdd (vecAdd (zeroVec emptyFaceCCXN.lin2W.rows)
          (reducedRankOutput emptyFaceCCXN.lin1W emptyFaceCCXN.lin1b sampleMat))
        (reducedRankOutput emptyFaceCCXN.lin0W emptyFaceCCXN.lin0b sampleMat))) ∧
    (sccnnComplexForward sampleSCCNNComplex (sampleMat, sampleMat, emptyMat 1)
        (sampleMat, sampleMat, sampleMat, sampleMat) (sampleMat, sampleMat) =
      vecAdd (vecAdd (zeroVec sampleSCCNNComplex.outLin2W.rows)
          (reducedRankOutput sampleSCCNNComplex.outLin1W sampleSCCNNComplex.outLin1b
            (sccnnRun sampleSCCNNComplex.layers
              (sccnnComplexInX sampleSCCNNComplex (sampleMat, sampleMat, emptyMat 1))
              (sampleMat, sampleMat, sampleMat, sampleMat) (sampleMat, sampleMat)).2.1))
        (reducedRankOutput sampleSCCNNComplex.outLin0W sampleSCCNNComplex.outLin0b
          (sccnnRun sampleSCCNNComplex.layers
            (sccnnComplexInX sampleSCCNNComplex (sampleMat, sampleMat, emptyMat 1))
            (sampleMat, sampleMat, sampleMat, sampleMat) (sampleMat, sampleMat)).1)) ∧
    (nanmeanDim0 (linearMap sampleSCNNShrec.linW sampleSCNNShrec.linb
        (scnnRun sampleSCNNShrec.layers (emptyMat 1) sampleMat sampleMat)) 0 = none ∧
      scnnShrecForward sampleSCNNShrec (emptyMat 1) sampleMat sampleMat =
        zeroVec sampleSCNNShrec.linW.rows) :=
  ⟨claim_c2.1 sampleMat zeroBias (emptyMat 1) 0 rfl,
   claim_c2.2.1 emptyFaceCCXN sampleMat sampleMat sampleMat sampleMat
     sampleMat sampleMat (emptyMat 1) rfl rfl,
   claim_c2.2.2.1 sampleSCCNNComplex (sampleMat, sampleMat, emptyMat 1)
     (sampleMat, sampleMat, sampleMat, sampleMat) (sampleMat, sampleMat) rfl,
   claim_c2.2.2.2 sampleSCNNShrec (emptyMat 1) sampleMat sampleMat 0 rfl⟩

/-- Claim C3 counterexample: the max-pooling SCNN of part_001, given a
zero-row final signal, propagates the torch.max error instead of
substituting zero, falsifying the claim that reduction over an empty
rank is never raised as an error. -/
theorem claim_c3_counterexample :
    scnnMaxForward (fun q => q) sampleSCNNMax (emptyMat 1) sampleMat sampleMat =
      Except.error "max(): Expected reduction dim 0 to have non-zero size." := rfl

/-- Claim C3 as amended: the mean-reduction models substitute zero for an
empty rank, but the max-pooling complex-classification models (the SCNN
in part_001 and the first SCCNN in sccnn_train_shrec) raise the torch.max
error to the caller when the pooled rank's final signal has zero rows. -/
theorem claim_c3 :
    (∀ (sigma : ℚ → ℚ) (m : SCNNMax) (x lapDown lapUp : Mat),
        (scnnRun m.layers x lapDown lapUp).rows = 0 →
        scnnMaxForward sigma m x lapDown lapUp =
          Except.error "max(): Expected reduction dim 0 to have non-zero size.") ∧
    (∀ (sigma : ℚ → ℚ) (m : SCCNNNode) (xAll : SigAll) (lapAll : LapAll) (incAll : IncAll),
        (sccnnRun m.layers (sccnnNodeInX m xAll) lapAll incAll).1.rows = 0 →
        sccnnNodeForward sigma m xAll lapAll incAll =
          Except.error "max(): Expected reduction dim 0 to have non-zero size.") := by
  constructor
  · intro sigma m x lapDown lapUp h
    simp only [scnnMaxForward, torchMaxDim0]
    rw [if_pos h]
  · intro sigma m xAll lapAll incAll h
    simp only [sccnnNodeForward, torchMaxDim0]
    rw [if_pos h]

/-- Witness for the amended C3 at concrete empty-rank inputs for both
max-pooling models. -/
theorem claim_c3_witness :
    scnnMaxForward (fun q => q) sampleSCNNMax (emptyMat 2) sampleMat sampleMat =
      Except.error "max(): Expected reduction dim 0 to have non-zero size." ∧
    sccnnNodeForward (fun q => q) sampleSCCNNNode (emptyMat 1, sampleMat, sampleMat)
        (sampleMat, sampleMat, sampleMat, sampleMat) (sampleMat, sampleMat) =
      Except.error "max(): Expected reduction dim 0 to have non-zero size." :=
  ⟨claim_c3.1 (fun q => q) sampleSCNNMax (emptyMat 2) sampleMat sampleMat rfl,
   claim_c3.2 (fun q => q) sampleSCCNNNode (emptyMat 1, sampleMat, sampleMat)
     (sampleMat, sampleMat, sampleMat, sampleMat) (sampleMat, sampleMat) rfl⟩

/-- Claim C4 counterexample: the shrec SCNN constructed with
`n_layers = 0` still contains one layer instance (the unconditional first
layer), so the model does not contain exactly `n_layers` layers. -/
theorem claim_c4_counterexample :
    (scnnShrecInit idLayer (fun _ => idLayer) 1 oneWeight zeroBias 0).layers.length ≠ 0 := by
  simp [scnnShrecInit]

/-- Claim C4 as amended: a model constructed with argument `n_layers ≥ 1`
contains exactly `n_layers` layer instances (the CCXN does so for every
`n_layers`, while the SCNN classes build one unconditional first layer
plus `n_layers - 1` further ones, so `n_layers = 0` still yields one
layer); forward applies the stack sequentially in construction order,
each appended layer consuming the previous layers' output signal(s)
together with the identical operator tensors passed to forward. -/
theorem claim_c4 :
    (∀ (mkLayer : Nat → CCXNLayerF) (in0 in1 in2 numClasses : Nat)
        (w0 w1 w2 : Nat → Nat → ℚ) (b0 b1 b2 : Nat → ℚ) (nLayers : Nat),
        (ccxnInit mkLayer in0 in1 in2 numClasses w0 w1 w2 b0 b1 b2 nLayers).layers.length
          = nLayers) ∧
    (∀ (firstLayer : SCNNLayerF) (mkLayer : Nat → SCNNLayerF) (outChannels : Nat)
        (w : Nat → Nat → ℚ) (b : Nat → ℚ) (nLayers : Nat), 1 ≤ nLayers →
        (scnnShrecInit firstLayer mkLayer outChannels w b nLayers).layers.length
          = nLayers) ∧
    (∀ (ls : List CCXNLayerF) (l : CCXNLayerF) (x0 x1 adj inc : Mat),
        ccxnRun (ls ++ [l]) x0 x1 adj inc =
          ccxnStep adj inc (ccxnRun ls x0 x1 adj inc) l) ∧
    (∀ (ls : List SCNNLayerF) (l : SCNNLayerF) (x lapDown lapUp : Mat),
        scnnRun (ls ++ [l]) x lapDown lapUp =
          l (scnnRun ls x lapDown lapUp) lapDown lapUp) := by
  refine ⟨?_, ?_, ?_, ?_⟩
  · intro mkLayer in0 in1 in2 numClasses w0 w1 w2 b0 b1 b2 nLayers
    simp [ccxnInit]
  · intro firstLayer mkLayer outChannels w b nLayers h
    simp only [scnnShrecInit, List.length_cons, List.length_map, List.length_range]
    omega
  · intro ls l x0 x1 adj inc
    simp [ccxnRun, List.foldl_append]
  · intro ls l x lapDown lapUp
    simp [scnnRun, List.foldl_append]

/-- Witness for the amended C4 at `n_layers = 1` and a concrete appended
layer. -/
theorem claim_c4_witness :
    (ccxnInit (fun _ => sampleCCXNLayer) 1 1 1 1 oneWeight oneWeight oneWeight
      zeroBias zeroBias zeroBias 2).layers.length = 2 ∧
    (scnnShrecInit idLayer (fun _ => idLayer) 1 oneWeight zeroBias 1).layers.length = 1 ∧
    ccxnRun ([sampleCCXNLayer] ++ [sampleCCXNLayer]) sampleMat sampleMat sampleMat sampleMat =
      ccxnStep sampleMat sampleMat
        (ccxnRun [sampleCCXNLayer] sampleMat sampleMat sampleMat sampleMat) sampleCCXNLayer ∧
    scnnRun ([idLayer] ++ [idLayer]) sampleMat sampleMat sampleMat =
      idLayer (scnnRun [idLayer] sampleMat sampleMat sampleMat) sampleMat sampleMat :=
  ⟨claim_c4.1 (fun _ => sampleCCXNLayer) 1 1 1 1 oneWeight oneWeight oneWeight
      zeroBias zeroBias zeroBias 2,
   claim_c4.2.1 idLayer (fun _ => idLayer) 1 oneWeight zeroBias 1 (by decide),
   claim_c4.2.2.1 [sampleCCXNLayer] sampleCCXNLayer sampleMat sampleMat sampleMat sampleMat,
   claim_c4.2.2.2 [idLayer] idLayer sampleMat sampleMat sampleMat⟩

/-- Claim C5: the karate SCNN projects its edge-level output to nodes by
exactly one incidence multiplication, returning
`softmax(linear(incidence_1 @ x), dim=-1)` with one row per node, while
the HSN, whose signal already lives on nodes, applies the linear readout
directly with no projection. -/
theorem claim_c5 :
    (∀ (e : ℚ → ℚ) (m : SCNNKarate) (x lapDown lapUp incidence1 : Mat),
        scnnKarateForward e m x lapDown lapUp incidence1 =
          softmaxRows e (linearMap m.linW m.linb
            (matMul incidence1 (scnnRun m.layers x lapDown lapUp)))) ∧
    (∀ (e : ℚ → ℚ) (m : SCNNKarate) (x lapDown lapUp incidence1 : Mat),
        (scnnKarateForward e m x lapDown lapUp incidence1).rows = incidence1.rows) ∧
    (∀ (firstLayer : SCNNLayerF) (mkLayer : Nat → SCNNLayerF) (outChannels : Nat)
        (w : Nat → Nat → ℚ) (b : Nat → ℚ) (nLayers : Nat)
        (e : ℚ → ℚ) (x lapDown lapUp incidence1 : Mat),
        (scnnKarateForward e (scnnKarateInit firstLayer mkLayer outChannels w b nLayers)
          x lapDown lapUp incidence1).cols = 2) ∧
    (∀ (e : ℚ → ℚ) (m : HSN) (x0 incidence1 adjacency0 : Mat),
        hsnForward e m x0 incidence1 adjacency0 =
          softmaxRows e (linearMap m.linW m.linb
            (hsnRun m.layers x0 incidence1 adjacency0))) :=
  ⟨fun _ _ _ _ _ _ => rfl, fun _ _ _ _ _ _ => rfl,
   fun _ _ _ _ _ _ _ _ _ _ _ => rfl, fun _ _ _ _ _ => rfl⟩

/-- Claim C6: the rank-dispatch glue fails fast on any rank other than 0,
1 or 2: `get_simplicial_features` raises `ValueError` without reading the
dataset, and the Laplacian-selection chain raises `ValueError` before any
model is constructed; for ranks 0, 1, 2 they select node, edge or face
features and the corresponding Laplacian pair. -/
theorem claim_c6 :
    (∀ (rank : ℤ), rank ≠ 0 → rank ≠ 1 → rank ≠ 2 →
        (∀ dataset dataset2 : SimplicialDataset,
          get_simplicial_features dataset rank =
            Except.error "input dimension must be 0, 1 or 2, because features are supported on nodes, edges and faces" ∧
          get_simplicial_features dataset rank = get_simplicial_features dataset2 rank)) ∧
    (∀ dataset : SimplicialDataset,
        get_simplicial_features dataset 0 = Except.ok dataset.node_feat ∧
        get_simplicial_features dataset 1 = Except.ok dataset.edge_feat ∧
        get_simplicial_features dataset 2 = Except.ok dataset.face_feat) ∧
    (∀ (rank : ℤ), rank ≠ 0 → rank ≠ 1 → rank ≠ 2 →
        ∀ (convOrderDown : Nat) (l0 lDown1 lUp1 l2 : Mat)
          (x0 x1 x2 : Mat) (c0 c1 c2 : Nat)
          (firstLayer : SCNNLayerF) (mkLayer : Nat → SCNNLayerF)
          (outChannels : Nat) (w : Nat → Nat → ℚ) (b : Nat → ℚ) (nLayers : Nat),
          rankSelectShrec rank convOrderDown l0 lDown1 lUp1 l2 x0 x1 x2 c0 c1 c2 =
            Except.error "Rank must be not larger than 2 on this dataset" ∧
          scnnShrecSetup firstLayer mkLayer rank convOrderDown l0 lDown1 lUp1 l2
              x0 x1 x2 c0 c1 c2 outChannels w b nLayers =
            Except.error "Rank must be not larger than 2 on this dataset") ∧
    (∀ (convOrderDown : Nat) (l0 lDown1 lUp1 l2 : Mat) (x0 x1 x2 : Mat) (c0 c1 c2 : Nat),
        rankSelectShrec 0 convOrderDown l0 lDown1 lUp1 l2 x0 x1 x2 c0 c1 c2 =
          Except.ok ⟨none, some l0, 0, x0, c0⟩ ∧
        rankSelectShrec 1 convOrderDown l0 lDown1 lUp1 l2 x0 x1 x2 c0 c1 c2 =
          Except.ok ⟨some lDown1, some lUp1, convOrderDown, x1, c1⟩ ∧
        rankSelectShrec 2 convOrderDown l0 lDown1 lUp1 l2 x0 x1 x2 c0 c1 c2 =
          Except.ok ⟨some l2, none, convOrderDown, x2, c2⟩) := by
  refine ⟨?_, ?_, ?_, ?_⟩
  · intro rank h0 h1 h2 dataset dataset2
    constructor
    · simp [get_simplicial_features, h0, h1, h2]
    · simp [get_simplicial_features, h0, h1, h2]
  · intro dataset
    refine ⟨rfl, ?_, ?_⟩
    · simp [get_simplicial_features]
    · simp [get_simplicial_features]
  · intro rank h0 h1 h2 convOrderDown l0 lDown1 lUp1 l2 x0 x1 x2 c0 c1 c2
      firstLayer mkLayer outChannels w b nLayers
    have hsel : rankSelectShrec (α := Mat) (β := Mat) rank convOrderDown
        l0 lDown1 lUp1 l2 x0 x1 x2 c0 c1 c2 =
        Except.error "Rank must be not larger than 2 on this dataset" := by
      simp [rankSelectShrec, h0, h1, h2]
    refine ⟨hsel, ?_⟩
    simp [scnnShrecSetup, hsel]
  · intro convOrderDown l0 lDown1 lUp1 l2 x0 x1 x2 c0 c1 c2
    refine ⟨rfl, ?_, ?_⟩
    · simp [rankSelectShrec]
    · simp [rankSelectShrec]

/-- Witness for C6 at the invalid rank 3 and a concrete dataset. -/
theorem claim_c6_witness :
    (get_simplicial_features ⟨[[1]], [[2]], [[3]]⟩ 3 =
        Except.error "input dimension must be 0, 1 or 2, because features are supported on nodes, edges and faces" ∧
      get_simplicial_features ⟨[[1]], [[2]], [[3]]⟩ 3 =
        get_simplicial_features ⟨[], [], []⟩ 3) ∧
    rankSelectShrec 3 2 sampleMat sampleMat sampleMat sampleMat
        sampleMat sampleMat sampleMat 1 1 1 =
      Except.error "Rank must be not larger than 2 on this dataset" ∧
    scnnShrecSetup idLayer (fun _ => idLayer) 3 2 sampleMat sampleMat sampleMat sampleMat
        sampleMat sampleMat sampleMat 1 1 1 1 oneWeight zeroBias 2 =
      Except.error "Rank must be not larger than 2 on this dataset" :=
  ⟨claim_c6.1 3 (by decide) (by decide) (by decide) ⟨[[1]], [[2]], [[3]]⟩ ⟨[], [], []⟩,
   (claim_c6.2.2.1 3 (by decide) (by decide) (by decide) 2 sampleMat sampleMat sampleMat
      sampleMat sampleMat sampleMat sampleMat 1 1 1 idLayer (fun _ => idLayer)
      1 oneWeight zeroBias 2).1,
   (claim_c6.2.2.1 3 (by decide) (by decide) (by decide) 2 sampleMat sampleMat sampleMat
      sampleMat sampleMat sampleMat sampleMat 1 1 1 idLayer (fun _ => idLayer)
      1 oneWeight zeroBias 2).2⟩

theorem ccxnRunSt_eq (ls : List CCXNLayerF) (ops : Mat × Mat) (acc : Mat × Mat × Option Mat) :
    ls.foldl (fun a l => (a.1, ccxnStep a.1.1 a.1.2 a.2 l)) (ops, acc) =
      (ops, ls.foldl (ccxnStep ops.1 ops.2) acc) := by
  induction ls generalizing acc with
  | nil => rfl
  | cons l ls ih =>
    simp only [List.foldl_cons]
    exact ih (ccxnStep ops.1 ops.2 acc l)

theorem ccxnRunSt_spec (ls : List CCXNLayerF) (ops : Mat × Mat) (x0 x1 : Mat) :
    ccxnRunSt ls ops x0 x1 = (ops, ccxnRun ls x0 x1 ops.1 ops.2) :=
  ccxnRunSt_eq ls ops (x0, x1, none)

theorem hsnRunSt_eq (ls : List HSNLayerF) (ops : Mat × Mat) (x0 : Mat) :
    ls.foldl (fun acc l => (acc.1, l acc.2 acc.1.1 acc.1.2)) (ops, x0) =
      (ops, ls.foldl (fun a l => l a ops.1 ops.2) x0) := by
  induction ls generalizing x0 with
  | nil => rfl
  | cons l ls ih =>
    simp only [List.foldl_cons]
    exact ih (l x0 ops.1 ops.2)

theorem hsnRunSt_spec (ls : List HSNLayerF) (ops : Mat × Mat) (x0 : Mat) :
    hsnRunSt ls ops x0 = (ops, hsnRun ls x0 ops.1 ops.2) :=
  hsnRunSt_eq ls ops x0

/-- Claim C7: forward passes are deterministic and side-effect-free: the
state-threaded forms of `CCXN.forward` and `HSN.forward`, which carry the
model weights and the operator tensors through every layer application,
return them unchanged, and their output coincides with the pure function
of the inputs and weights (the sources consume no randomness: no RNG call
occurs in either forward). -/
theorem claim_c7 :
    (∀ (m : CCXN) (x0 x1 adj inc : Mat),
        ccxnForwardSt m x0 x1 adj inc = (ccxnForward m x0 x1 adj inc, m, adj, inc)) ∧
    (∀ (e : ℚ → ℚ) (m : HSN) (x0 inc adj : Mat),
        hsnForwardSt e m x0 inc adj = (hsnForward e m x0 inc adj, m, inc, adj)) := by
  constructor
  · intro m x0 x1 adj inc
    simp only [ccxnForwardSt, ccxnForward, ccxnRunSt_spec]
  · intro e m x0 inc adj
    simp only [hsnForwardSt, hsnForward, hsnRunSt_spec]

/-- Claim C8: with degree bound `P = 0` the Polynomial Same-Rank Filter
computes exactly `W_0 · H`, a plain per-rank linear term with no
structural mixing by `L` (the result is independent of `L`). -/
theorem claim_c8 :
    (∀ (weight : Nat → Mat) (L H : Mat), polyFilter weight L H 0 = matMul (weight 0) H) ∧
    (∀ (weight : Nat → Mat) (L L2 H : Mat),
        polyFilter weight L H 0 = polyFilter weight L2 H 0) :=
  ⟨fun _ _ _ => rfl, fun _ _ _ _ => rfl⟩

theorem softmaxRows_entry_nonneg (e : ℚ → ℚ) (he : ∀ q, 0 < e q) (X : Mat) (i j : Nat) :
    0 ≤ (softmaxRows e X).entry i j := by
  apply div_nonneg (le_of_lt (he _))
  apply Finset.sum_nonneg
  intro k _
  exact le_of_lt (he _)

theorem softmaxRows_row_sum (e : ℚ → ℚ) (he : ∀ q, 0 < e q) (X : Mat)
    (hc : X.cols ≠ 0) (i : Nat) :
    Finset.sum (Finset.range (softmaxRows e X).cols)
      (fun j => (softmaxRows e X).entry i j) = 1 := by
  have hpos : 0 < Finset.sum (Finset.range X.cols) (fun k => e (X.entry i k)) := by
    apply Finset.sum_pos
    · intro k _
      exact he _
    · exact Finset.nonempty_range_iff.mpr hc
  show Finset.sum (Finset.range X.cols)
      (fun j => e (X.entry i j) / Finset.sum (Finset.range X.cols) (fun k => e (X.entry i k))) = 1
  rw [← Finset.sum_div]
  exact div_self (ne_of_gt hpos)

/-- Claim C9: for every input and every value of the weights, the
node-classification outputs are row-stochastic: each row of the matrix
returned by the karate `SCNN.forward` and by `HSN.forward` has
nonnegative entries summing to 1, because both forwards end in a softmax
over the class dimension (of width 2) and torch's `exp` is strictly
positive. -/
theorem claim_c9 (e : ℚ → ℚ) (he : ∀ q, 0 < e q) :
    (∀ (firstLayer : SCNNLayerF) (mkLayer : Nat → SCNNLayerF) (outChannels : Nat)
        (w : Nat → Nat → ℚ) (b : Nat → ℚ) (nLayers : Nat)
        (x lapDown lapUp incidence1 : Mat) (i j : Nat),
        0 ≤ (scnnKarateForward e (scnnKarateInit firstLayer mkLayer outChannels w b nLayers)
          x lapDown lapUp incidence1).entry i j) ∧
    (∀ (firstLayer : SCNNLayerF) (mkLayer : Nat → SCNNLayerF) (outChannels : Nat)
        (w : Nat → Nat → ℚ) (b : Nat → ℚ) (nLayers : Nat)
        (x lapDown lapUp incidence1 : Mat) (i : Nat),
        Finset.sum (Finset.range (scnnKarateForward e
            (scnnKarateInit firstLayer mkLayer outChannels w b nLayers)
            x lapDown lapUp incidence1).cols)
          (fun j => (scnnKarateForward e
            (scnnKarateInit firstLayer mkLayer outChannels w b nLayers)
            x lapDown lapUp incidence1).entry i j) = 1) ∧
    (∀ (mkLayer : Nat → HSNLayerF) (channels : Nat) (w : Nat → Nat → ℚ) (b : Nat → ℚ)
        (nLayers : Nat) (x0 inc adj : Mat) (i j : Nat),
        0 ≤ (hsnForward e (hsnInit mkLayer channels w b nLayers) x0 inc adj).entry i j) ∧
    (∀ (mkLayer : Nat → HSNLayerF) (channels : Nat) (w : Nat → Nat → ℚ) (b : Nat → ℚ)
        (nLayers : Nat) (x0 inc adj : Mat) (i : Nat),
        Finset.sum (Finset.range (hsnForward e (hsnInit mkLayer channels w b nLayers)
            x0 inc adj).cols)
          (fun j => (hsnForward e (hsnInit mkLayer channels w b nLayers)
            x0 inc adj).entry i j) = 1) := by
  refine ⟨?_, ?_, ?_, ?_⟩
  · intro firstLayer mkLayer outChannels w b nLayers x lapDown lapUp incidence1 i j
    exact softmaxRows_entry_nonneg e he _ i j
  · intro firstLayer mkLayer outChannels w b nLayers x lapDown lapUp incidence1 i
    exact softmaxRows_row_sum e he _ (Nat.succ_ne_zero 1) i
  · intro mkLayer channels w b nLayers x0 inc adj i j
    exact softmaxRows_entry_nonneg e he _ i j
  · intro mkLayer channels w b nLayers x0 inc adj i
    exact softmaxRows_row_sum e he _ (Nat.succ_ne_zero 1) i

/-- Witness for C9 with exp instantiated by the positive constant
function 1 at concrete one-layer models. -/
theorem claim_c9_witness :
    Finset.sum (Finset.range (scnnKarateForward (fun _ => 1)
        (scnnKarateInit idLayer (fun _ => idLayer) 1 oneWeight zeroBias 1)
        sampleMat sampleMat sampleMat sampleMat).cols)
      (fun j => (scnnKarateForward (fun _ => 1)
        (scnnKarateInit idLayer (fun _ => idLayer) 1 oneWeight zeroBias 1)
        sampleMat sampleMat sampleMat sampleMat).entry 0 j) = 1 ∧
    0 ≤ (hsnForward (fun _ => 1) (hsnInit (fun _ => idLayer) 1 oneWeight zeroBias 1)
        sampleMat sampleMat sampleMat).entry 0 0 :=
  ⟨(claim_c9 (fun _ => 1) (fun _ => one_pos)).2.1 idLayer (fun _ => idLayer) 1
      oneWeight zeroBias 1 sampleMat sampleMat sampleMat sampleMat 0,
   (claim_c9 (fun _ => 1) (fun _ => one_pos)).2.2.1 (fun _ => idLayer) 1
      oneWeight zeroBias 1 sampleMat sampleMat sampleMat 0 0⟩

/-- Claim C10: in every SCNN model class the first stacked `SCNNLayer` is
constructed without the `aggr_norm` and `update_func` arguments: the
head of the layer-argument list carries `SCNNLayer`'s own defaults
regardless of the configured values, only layers 2 through `n_layers`
receive the configured values, and with `n_layers = 1` the configured
values have no effect on the constructed list at all. -/
theorem claim_c10 :
    (∀ (defaultAggrNorm : Bool) (defaultUpdateFunc : Option String)
        (inChannels intermediateChannels outChannels convOrderDown convOrderUp : Nat)
        (aggrNorm : Bool) (updateFunc : Option String) (nLayers : Nat),
        (scnnLayerArgsList defaultAggrNorm defaultUpdateFunc inChannels
          intermediateChannels outChannels convOrderDown convOrderUp
          aggrNorm updateFunc nLayers).head? =
          some ⟨inChannels, intermediateChannels, convOrderDown, convOrderUp,
            defaultAggrNorm, defaultUpdateFunc⟩) ∧
    (∀ (defaultAggrNorm : Bool) (defaultUpdateFunc : Option String)
        (inChannels intermediateChannels outChannels convOrderDown convOrderUp : Nat)
        (aggrNorm : Bool) (updateFunc : Option String) (nLayers : Nat),
        (scnnLayerArgsList defaultAggrNorm defaultUpdateFunc inChannels
          intermediateChannels outChannels convOrderDown convOrderUp
          aggrNorm updateFunc nLayers).tail =
          List.replicate (nLayers - 1)
            ⟨intermediateChannels, outChannels, convOrderDown, convOrderUp,
              aggrNorm, updateFunc⟩) ∧
    (∀ (defaultAggrNorm : Bool) (defaultUpdateFunc : Option String)
        (inChannels intermediateChannels outChannels convOrderDown convOrderUp : Nat)
        (aggrNorm aggrNorm2 : Bool) (updateFunc updateFunc2 : Option String),
        scnnLayerArgsList defaultAggrNorm defaultUpdateFunc inChannels
          intermediateChannels outChannels convOrderDown convOrderUp
          aggrNorm updateFunc 1 =
        scnnLayerArgsList defaultAggrNorm defaultUpdateFunc inChannels
          intermediateChannels outChannels convOrderDown convOrderUp
          aggrNorm2 updateFunc2 1) := by
  refine ⟨?_, ?_, ?_⟩
  · intro defaultAggrNorm defaultUpdateFunc inChannels intermediateChannels outChannels
      convOrderDown convOrderUp aggrNorm updateFunc nLayers
    rfl
  · intro defaultAggrNorm defaultUpdateFunc inChannels intermediateChannels outChannels
      convOrderDown convOrderUp aggrNorm updateFunc nLayers
    simp [scnnLayerArgsList, List.map_const']
  · intro defaultAggrNorm defaultUpdateFunc inChannels intermediateChannels outChannels
      convOrderDown convOrderUp aggrNorm aggrNorm2 updateFunc updateFunc2
    rfl

end TnnChallenge
